import Mathlib

/-!
Verification of the benchmark-orchestration scripts `script.py` and
`percomponent_analysis.py` of the webgraph-ans repository.

The two Python scripts are shallowly embedded below.  Python floats are
modelled as exact rationals (`ℚ`), Python ints as `ℤ`/`ℕ`, and every
fallible Python operation (list subscript out of range, `float`/`int`
parse failure, division by zero, `os.path.getsize` on a missing file,
`exit(1)` on a failed precondition) is modelled as an `Except ScriptErr`
result whose error constructor names the failure condition.  External
subprocess invocations are modelled through an environment `Env` of
oracles (directory/file existence, text-file contents, file sizes, and
the standard output of external binaries); every launch of an external
process is recorded as an `Event`, in the order the script performs
them.  Shell text pipelines (`grep | cut`) that the scripts delegate to
a shell are emulated by executable functions on the file contents.
-/

attribute [local semireducible] Rat.add Rat.mul Rat.inv Rat.sub Rat.ofScientific

deriving instance DecidableEq for Except

/-- The failure conditions of the scripts.  `preconditionError` models
`exit(1)` from the up-front directory/file checks; `malformedValueError`
models a `float()`/`int()` `ValueError`; `emptySampleSetError` models the
`IndexError` raised by `sorted_samples[len // 2]` (which occurs exactly
when the sample set is empty); `degenerateMetricError` models the
`ZeroDivisionError` raised when a metric denominator is zero;
`fileNotFoundError` models `os.path.getsize` on a missing file; and
`indexError` models any other out-of-range list subscript. -/
inductive ScriptErr where
  | preconditionError
  | malformedValueError
  | emptySampleSetError
  | degenerateMetricError
  | fileNotFoundError
  | indexError
deriving DecidableEq, Repr

/-! Character-list string utilities

All string processing is done on `String.data` character lists with
structural recursion, mirroring the Python/shell text operations. -/

/-- Numeric value of a digit list, most significant digit first. -/
def natOfDigits (cs : List Char) : ℕ :=
  cs.foldl (fun a c => a * 10 + (c.toNat - 48)) 0

/-- Split a character list at the first occurrence of a dot, returning
the part before it and, when a dot is present, the part after it. -/
def splitAtDot : List Char → List Char × Option (List Char)
  | [] => ([], none)
  | c :: rest =>
    if c = '.' then ([], some rest)
    else
      let r := splitAtDot rest
      (c :: r.1, r.2)

/-- Strip leading and trailing whitespace, as Python `float`/`int`
do with their string argument. -/
def pyTrim (s : String) : String :=
  String.mk (((s.data.dropWhile Char.isWhitespace).reverse.dropWhile Char.isWhitespace).reverse)

/-- Python `str.strip(chars)`: remove from both ends every character
that occurs in `set`. -/
def stripChars (set : String) (s : String) : String :=
  String.mk (((s.data.dropWhile set.data.contains).reverse.dropWhile set.data.contains).reverse)

/-- Python `float(s)` on plain decimal notation: optional sign, digits,
optional dot and fraction digits; `none` models the `ValueError` raised
on anything else. -/
def pyFloat? (s : String) : Option ℚ :=
  let core : List Char → Option ℚ := fun l =>
    match splitAtDot l with
    | (ip, none) =>
      if (!ip.isEmpty) && ip.all Char.isDigit then some (natOfDigits ip : ℚ) else none
    | (ip, some fp) =>
      if ((!ip.isEmpty) || (!fp.isEmpty)) && ip.all Char.isDigit && fp.all Char.isDigit then
        some ((natOfDigits ip : ℚ) + (natOfDigits fp : ℚ) / (10 : ℚ) ^ fp.length)
      else none
  match (pyTrim s).data with
  | '-' :: rest => (core rest).map (fun q => -q)
  | '+' :: rest => core rest
  | rest => core rest

/-- Python `int(s)`: optional sign and digits only. -/
def pyIntOfString (s : String) : Option ℤ :=
  let core : List Char → Option ℤ := fun l =>
    if (!l.isEmpty) && l.all Char.isDigit then some (natOfDigits l : ℤ) else none
  match (pyTrim s).data with
  | '-' :: rest => (core rest).map (fun z => -z)
  | '+' :: rest => core rest
  | rest => core rest

/-- Python `int(x)` on a float: truncation toward zero. -/
def pyInt (q : ℚ) : ℤ :=
  if 0 ≤ q then Rat.floor q else -(Rat.floor (-q))

/-- Split a character list on a separator character, keeping empty
pieces, like Python `str.split(sep)`. -/
def splitOnCharList (c : Char) : List Char → List (List Char)
  | [] => [[]]
  | x :: xs =>
    let r := splitOnCharList c xs
    if x = c then [] :: r
    else
      match r with
      | y :: ys => (x :: y) :: ys
      | [] => [[x]]

/-- Python `s.split("\n")`. -/
def splitLines (s : String) : List String :=
  (splitOnCharList '\n' s.data).map String.mk

/-- Whether `p` is a prefix of `s` (used to emulate an anchored
`grep ^key`). -/
def strStarts (p s : String) : Bool :=
  List.isPrefixOf p.data s.data

/-- A character that can be part of a `grep -w` word. -/
def wordChar (c : Char) : Bool :=
  c.isAlphanum || c = '_'

/-- The maximal word-character runs of a string. -/
def wordTokensAux : List Char → List Char → List String
  | [], acc => if acc.isEmpty then [] else [String.mk acc.reverse]
  | c :: cs, acc =>
    if wordChar c then wordTokensAux cs (c :: acc)
    else if acc.isEmpty then wordTokensAux cs []
    else String.mk acc.reverse :: wordTokensAux cs []

/-- All whole words occurring in a string. -/
def wordTokens (s : String) : List String :=
  wordTokensAux s.data []

/-- Emulation of `grep -w w`: keep the lines containing `w` as a whole word. -/
def grepW (w : String) (lines : List String) : List String :=
  lines.filter (fun l => (wordTokens l).contains w)

/-- Emulation of `cut -d d -f (i+1)`: field `i` (0-based) of a line; a line without
the delimiter passes through whole, and a missing field is empty. -/
def cutF (d : Char) (i : ℕ) (line : String) : String :=
  let ps := splitOnCharList d line.data
  if ps.length ≤ 1 then line else String.mk (ps.getD i [])

/-- Join lines into the standard output of a pipeline: every line is
followed by a newline. -/
def joinLines : List String → String
  | [] => ""
  | l :: ls => l ++ "\n" ++ joinLines ls

/-- Standard output of `grep -w key file | cut -d= -f2`. -/
def grepCutW (key : String) (lines : List String) : String :=
  joinLines ((grepW key lines).map (cutF '=' 1))

/-- Standard output of `grep ^key file | cut -d= -f2`. -/
def grepCutAnchored (key : String) (lines : List String) : String :=
  joinLines ((lines.filter (fun l => strStarts key l)).map (cutF '=' 1))

/-- Split a character list on a nonempty separator list, keeping empty
pieces (fuel-driven structural recursion; the fuel is the input
length, which always suffices). -/
def splitStrAux (sep : List Char) : ℕ → List Char → List Char → List (List Char)
  | _, [], acc => [acc.reverse]
  | 0, l, acc => [acc.reverse ++ l]
  | f + 1, c :: cs, acc =>
    if List.isPrefixOf sep (c :: cs) then
      acc.reverse :: splitStrAux sep f (List.drop sep.length (c :: cs)) []
    else
      splitStrAux sep f cs (c :: acc)

/-- Split a string on a nonempty separator string, keeping empty
pieces. -/
def splitStr (sep s : String) : List (List Char) :=
  splitStrAux sep.data s.data.length s.data []

/-- Whether `sub` occurs as a substring of `s` (for nonempty `sub`). -/
def containsStr (sub s : String) : Bool :=
  decide (2 ≤ (splitStr sub s).length)

/-- Python re.split on runs of spaces: split on maximal runs of spaces, keeping an
empty leading/trailing piece when the string starts/ends with a space
(fuel-driven structural recursion). -/
def splitSpacesRun : ℕ → List Char → List Char → List (List Char)
  | _, [], acc => [acc.reverse]
  | 0, l, acc => [acc.reverse ++ l]
  | f + 1, c :: rest, acc =>
    if c = ' ' then acc.reverse :: splitSpacesRun f (rest.dropWhile (fun x => x = ' ')) []
    else splitSpacesRun f rest (c :: acc)

def reSplitSpaces (s : String) : List String :=
  (splitSpacesRun s.data.length s.data []).map String.mk

/-! Decimal rendering (Python string formatting) -/

/-- Decimal digits of a natural number (fuel-driven). -/
def natStrAux : ℕ → ℕ → List Char
  | 0, _ => []
  | f + 1, n =>
    if n < 10 then [Char.ofNat (48 + n)]
    else natStrAux f (n / 10) ++ [Char.ofNat (48 + n % 10)]

/-- Python `str` of a nonnegative integer. -/
def natStr (n : ℕ) : String :=
  String.mk (natStrAux (n + 1) n)

/-- Python `str` of an integer. -/
def intStr (z : ℤ) : String :=
  if z < 0 then "-" ++ natStr z.natAbs else natStr z.natAbs

/-- Round to the nearest integer, ties to even — the rounding used by
Python `format` on floats (modelled on exact rationals). -/
def roundHalfEven (q : ℚ) : ℤ :=
  let f := Rat.floor q
  let r := q - (f : ℚ)
  if r < 1 / 2 then f
  else if 1 / 2 < r then f + 1
  else if f % 2 = 0 then f else f + 1

/-- Left-pad a digit string with zeros to width `w`. -/
def padZeros (w : ℕ) (s : String) : String :=
  String.mk (List.replicate (w - s.data.length) '0') ++ s

/-- Python `"{:.Nf}".format(q)`: fixed-point rendering with `prec`
fractional digits. -/
def fmtFixed (prec : ℕ) (q : ℚ) : String :=
  let n := roundHalfEven (q * (10 : ℚ) ^ prec)
  if prec = 0 then intStr n
  else
    let sgn := if n < 0 then "-" else ""
    let a := n.natAbs
    sgn ++ natStr (a / 10 ^ prec) ++ "." ++ padZeros prec (natStr (a % 10 ^ prec))

/-- Smallest number of decimal digits after the point needed to write
`q` exactly, if at most `fuel` digits suffice. -/
def decExp : ℕ → ℚ → Option ℕ
  | 0, _ => none
  | f + 1, q => if q.den = 1 then some 0 else (decExp f (q * 10)).map (fun k => k + 1)

/-- Python `"{}".format(x)` on a float: shortest exact decimal
rendering (with a `num/den` fallback for rationals without a finite
decimal expansion, which cannot arise from parsed float input). -/
def pyRepr (q : ℚ) : String :=
  match decExp 40 q with
  | some 0 => intStr q.num ++ ".0"
  | some k => fmtFixed k q
  | none => intStr q.num ++ "/" ++ natStr q.den

/-- The `sizeof_fmt` helper of `percomponent_analysis.py`: render a
byte count with binary-prefix units, dividing by 1024 until the value
is small. -/
def sizeofFmtAux : List String → ℚ → String
  | [], num => fmtFixed 1 num ++ "YiB"
  | u :: rest, num =>
    if |num| < 1024 then fmtFixed 1 num ++ u ++ "B"
    else sizeofFmtAux rest (num / 1024)

def sizeofFmt (num : ℚ) : String :=
  sizeofFmtAux ["", "Ki", "Mi", "Gi", "Ti", "Pi", "Ei", "Zi"] num

/-! The Statistic Reducer (median selection)

`script.py` lines 116-118 and 127-128: sort the samples ascending with
`sorted(...)` and take the element at index `len // 2`. -/

/-- Python `sorted` on rational samples: ascending stable sort. -/
def sortAsc (l : List ℚ) : List ℚ :=
  List.insertionSort (fun a b => a ≤ b) l

/-- The median selection `sorted_samples[len(sorted_samples) // 2]`; the subscript raises
`IndexError` exactly when the sample list is empty. -/
def medianE (samples : List ℚ) : Except ScriptErr ℚ :=
  let s := sortAsc samples
  match s.get? (s.length / 2) with
  | some v => Except.ok v
  | none => Except.error ScriptErr.emptySampleSetError

/-! The Speed Sampler

`script.py` lines 116-117 / 127: split the standard
output on newlines, discard empty lines, parse each line with
`float`. -/

/-- Parse every line with `float`, failing if any line fails. -/
def parseAll : List String → Option (List ℚ)
  | [] => some []
  | s :: rest =>
    match pyFloat? s, parseAll rest with
    | some v, some vs => some (v :: vs)
    | _, _ => none

/-- The comprehension that parses every nonempty line of the raw output with `float`. -/
def speedSamples (raw : String) : Except ScriptErr (List ℚ) :=
  match parseAll ((splitLines raw).filter (fun s => s ≠ "")) with
  | some vs => Except.ok vs
  | none => Except.error ScriptErr.malformedValueError

/-! The Metrics Engine

Pure formulas from `script.py` lines 170-184 and
`percomponent_analysis.py` lines 76-82, with the Python
`ZeroDivisionError` modelled as `degenerateMetricError`.  Each
percentage below mirrors one source line; all of them negate the
`(baseline - new) / baseline * 100` ratio. -/

/-- Python division, which raises `ZeroDivisionError` on a zero
denominator instead of producing an infinity or NaN. -/
def pyDivE (a b : ℚ) : Except ScriptErr ℚ :=
  if b = 0 then Except.error ScriptErr.degenerateMetricError else Except.ok (a / b)

/-- From `script.py` lines 170 and 174: `(size * 8) / arcs`. -/
def bit_link (size arcs : ℚ) : Except ScriptErr ℚ :=
  pyDivE (size * 8) arcs

/-- From `script.py` line 172: `-(((bv_graphs_size - ans_size) / bv_graphs_size) * 100)`. -/
def occupation (bv ans : ℚ) : Except ScriptErr ℚ :=
  match pyDivE (bv - ans) bv with
  | Except.error e => Except.error e
  | Except.ok d => Except.ok (-(d * 100))

/-- From `script.py` lines 176-177: the same formula for the high-compression pair. -/
def occupation_hc (bvHc ansHc : ℚ) : Except ScriptErr ℚ :=
  match pyDivE (bvHc - ansHc) bvHc with
  | Except.error e => Except.error e
  | Except.ok d => Except.ok (-(d * 100))

/-- From `script.py` line 181: the same formula for the `.obl`/phases pair. -/
def occupation_phases (obl phases : ℚ) : Except ScriptErr ℚ :=
  match pyDivE (obl - phases) obl with
  | Except.error e => Except.error e
  | Except.ok d => Except.ok (-(d * 100))

/-- From `script.py` lines 183-184: the same formula for the speed pair. -/
def random_speed_comparison (bvSpeed ansSpeed : ℚ) : Except ScriptErr ℚ :=
  match pyDivE (bvSpeed - ansSpeed) bvSpeed with
  | Except.error e => Except.error e
  | Except.ok d => Except.ok (-(d * 100))

/-- From `percomponent_analysis.py` lines 76-82 and 130-136: the same
formula for each per-component pair. -/
def component_delta (bv ans : ℚ) : Except ScriptErr ℚ :=
  match pyDivE (bv - ans) bv with
  | Except.error e => Except.error e
  | Except.ok d => Except.ok (-(d * 100))

/-- The space-delta formula as the specification states it:
`(baseline_size - artifact_size) / baseline_size * 100`, positive when
the new scheme is smaller. -/
def specSpaceDelta (baseline artifact : ℚ) : ℚ :=
  (baseline - artifact) / baseline * 100

/-- From `percomponent_analysis.py` lines 48-61: a per-component byte count
is obtained from a bit count with `int(float(v) / 8)`.  The division
by 8 converts bits to bytes; `int` truncates toward zero. -/
def bitsToBytes (v : ℚ) : ℤ :=
  pyInt (v / 8)

/-- The whole Metadata Extractor pipeline for one per-component field
of `percomponent_analysis.py` (for example line 48-49):
`int(float(run("grep ^key file | cut -d= -f2").strip("\n")) / 8)`. -/
def bvFieldLines (key : String) (lines : List String) : Except ScriptErr ℤ :=
  match pyFloat? (stripChars "\n" (grepCutAnchored key lines)) with
  | none => Except.error ScriptErr.malformedValueError
  | some v => Except.ok (bitsToBytes v)

/-! Environment and event trace

External effects are mediated by oracles: `isdir`/`isfile` model
`os.path.isdir`/`os.path.isfile`, `fileLines` gives the text content of
a file (consumed by the emulated `grep | cut` pipelines), `fileSize`
models `os.path.getsize` (`none` for a missing file), and `runOut`
gives the standard output captured from an external binary.  Every
subprocess launch is recorded as an `Event.proc` carrying the command,
in program order. -/

structure Env where
  isdir : String → Bool
  isfile : String → Bool
  fileLines : String → List String
  fileSize : String → Option ℕ
  runOut : String → String

inductive Event where
  | proc (cmd : String)
deriving DecidableEq, Repr

/-- The measurements `script.py` accumulates for one graph in the loop
of lines 70-128. -/
structure Meas where
  arcs : ℤ
  bvSize : ℤ
  bvHcSize : ℤ
  ansSize : ℕ
  ansHcSize : ℕ
  phasesSize : ℕ
  seqSpeed : ℚ
  randSpeed : ℚ
deriving DecidableEq, Repr

/-- The files `script.py` lines 36-45 require for each requested graph
before anything is run. -/
def requiredGraphFiles (graphsDir g : String) : List String :=
  [graphsDir ++ g ++ "/" ++ g ++ ".properties",
   graphsDir ++ g ++ "/" ++ g ++ "-hc.properties",
   graphsDir ++ g ++ "/" ++ g ++ ".obl",
   graphsDir ++ g ++ "/" ++ g ++ ".graph",
   graphsDir ++ g ++ "/" ++ g ++ "-hc.graph"]

/-- The file precheck of `script.py` lines 36-45. -/
def filesOk (env : Env) (graphsDir : String) (graphs : List String) : Bool :=
  graphs.all (fun g => (requiredGraphFiles graphsDir g).all (fun f => env.isfile f))

/-- From `script.py` lines 116-118 (and 127-128): parse the speed samples
out of a captured standard output and reduce them to their median. -/
def medianOfRun (raw : String) : Except ScriptErr ℚ :=
  match speedSamples raw with
  | Except.error e => Except.error e
  | Except.ok vs => medianE vs

/-- One iteration of the measurement loop of `script.py` lines 70-128
for graph `g`: grep the arc count and the two bits-per-link reference
values out of the property files, run the compressor twice, read the
artifact sizes, and run the two speed tests, reducing each sample list
to its median.  Returns the events (subprocess launches) performed and
either the measurements or the first failure. -/
def measureGraph (env : Env) (gd cd g : String) : List Event × Except ScriptErr Meas :=
  let props := gd ++ g ++ "/" ++ g ++ ".properties"
  let hcProps := gd ++ g ++ "/" ++ g ++ "-hc.properties"
  let cmd1 := "grep -w arcs " ++ props ++ " | cut -d= -f2"
  let cmd2 := "grep -w bitsperlink " ++ props ++ " | cut -d= -f2"
  let cmd3 := "grep -w bitsperlink " ++ hcProps ++ " | cut -d= -f2"
  let cmd4 := "./target/release/bvcomp " ++ gd ++ g ++ "/" ++ g ++ " " ++ cd ++ g
  let cmd5 := "./target/release/bvcomp " ++ gd ++ g ++ "/" ++ g ++ " " ++ cd ++ g ++
    "-hc -w 16 -c 2000000000"
  let cmd6 := "./target/release/seq_access_bvtest " ++ cd ++ g ++ "-hc"
  let cmd7 := "./target/release/random_access_bvtest " ++ cd ++ g
  match pyIntOfString (grepCutW "arcs" (env.fileLines props)) with
  | none => ([Event.proc cmd1], Except.error ScriptErr.malformedValueError)
  | some arcs =>
  match pyFloat? (stripChars "/n" (grepCutW "bitsperlink" (env.fileLines props))) with
  | none => ([Event.proc cmd1, Event.proc cmd2], Except.error ScriptErr.malformedValueError)
  | some bpl =>
  match pyFloat? (stripChars "/n" (grepCutW "bitsperlink" (env.fileLines hcProps))) with
  | none =>
    ([Event.proc cmd1, Event.proc cmd2, Event.proc cmd3],
     Except.error ScriptErr.malformedValueError)
  | some hcBpl =>
  let evs := [Event.proc cmd1, Event.proc cmd2, Event.proc cmd3, Event.proc cmd4,
    Event.proc cmd5]
  match env.fileSize (cd ++ g ++ ".ans") with
  | none => (evs, Except.error ScriptErr.fileNotFoundError)
  | some ansSize =>
  match env.fileSize (cd ++ g ++ "-hc.ans") with
  | none => (evs, Except.error ScriptErr.fileNotFoundError)
  | some ansHcSize =>
  match env.fileSize (cd ++ g ++ ".states") with
  | none => (evs, Except.error ScriptErr.fileNotFoundError)
  | some states =>
  match env.fileSize (cd ++ g ++ ".pointers") with
  | none => (evs, Except.error ScriptErr.fileNotFoundError)
  | some pointers =>
  match medianOfRun (env.runOut cmd6) with
  | Except.error e => (evs ++ [Event.proc cmd6], Except.error e)
  | Except.ok seqSpeed =>
  match medianOfRun (env.runOut cmd7) with
  | Except.error e => (evs ++ [Event.proc cmd6, Event.proc cmd7], Except.error e)
  | Except.ok randSpeed =>
    (evs ++ [Event.proc cmd6, Event.proc cmd7],
     Except.ok
       { arcs := arcs
         bvSize := pyInt (bpl * (arcs : ℚ) / 8)
         bvHcSize := pyInt (hcBpl * (arcs : ℚ) / 8)
         ansSize := ansSize
         ansHcSize := ansHcSize
         phasesSize := states + pointers
         seqSpeed := seqSpeed
         randSpeed := randSpeed })

/-- The measurement loop over all requested graphs; a failure aborts
the whole script (the source has no per-graph error isolation). -/
def runGraphs (env : Env) (gd cd : String) : List String → List Event × Except ScriptErr (List Meas)
  | [] => ([], Except.ok [])
  | g :: rest =>
    let (ev, r) := measureGraph env gd cd g
    match r with
    | Except.error e => (ev, Except.error e)
    | Except.ok m =>
      let (ev2, r2) := runGraphs env gd cd rest
      match r2 with
      | Except.error e => (ev ++ ev2, Except.error e)
      | Except.ok ms => (ev ++ ev2, Except.ok (m :: ms))

/-- The report-row computation of `script.py` lines 169-201 for one
graph: derive the formatted cells from the measurements, the `.obl`
size (read at line 179; `none` models a missing file) and the baseline
random speed.  Mirrors the order of the source so that the first
failing metric is the reported one. -/
def buildDataRow (name : String) (m : Meas) (oblSize? : Option ℕ) (bvRandomSpeed : ℚ) :
    Except ScriptErr (List String) :=
  match bit_link (m.ansSize : ℚ) (m.arcs : ℚ) with
  | Except.error e => Except.error e
  | Except.ok bl =>
  match occupation (m.bvSize : ℚ) (m.ansSize : ℚ) with
  | Except.error e => Except.error e
  | Except.ok occ =>
  match bit_link (m.ansHcSize : ℚ) (m.arcs : ℚ) with
  | Except.error e => Except.error e
  | Except.ok hcBl =>
  match occupation_hc (m.bvHcSize : ℚ) (m.ansHcSize : ℚ) with
  | Except.error e => Except.error e
  | Except.ok occHc =>
  match oblSize? with
  | none => Except.error ScriptErr.fileNotFoundError
  | some obl =>
  match occupation_phases (obl : ℚ) (m.phasesSize : ℚ) with
  | Except.error e => Except.error e
  | Except.ok occPh =>
  match random_speed_comparison bvRandomSpeed m.randSpeed with
  | Except.error e => Except.error e
  | Except.ok spCmp =>
    Except.ok
      [name,
       intStr m.bvSize ++ " B",
       natStr m.ansSize ++ " B",
       fmtFixed 3 bl ++ " (" ++ fmtFixed 0 occ ++ "%)",
       intStr m.bvHcSize ++ " B",
       natStr m.ansHcSize ++ " B",
       fmtFixed 3 hcBl ++ " (" ++ fmtFixed 0 occHc ++ "%)",
       natStr m.phasesSize ++ " B(" ++ fmtFixed 0 occPh ++ "%)",
       natStr (m.ansSize + m.phasesSize) ++ " B",
       pyRepr m.randSpeed ++ " (" ++ fmtFixed 1 spCmp ++ "%)",
       fmtFixed 1 m.seqSpeed]

/-- Parse the whitespace-column output of `webgraph bench bvgraph`
(`script.py` line 158): for every line except the trailing one, take
field 1 of the space-run split of the line and parse it as a float. -/
def parseBenchLines : List String → Except ScriptErr (List ℚ)
  | [] => Except.ok []
  | l :: rest =>
    match (reSplitSpaces l).get? 1 with
    | none => Except.error ScriptErr.indexError
    | some f =>
      match pyFloat? f with
      | none => Except.error ScriptErr.malformedValueError
      | some v =>
        match parseBenchLines rest with
        | Except.error e => Except.error e
        | Except.ok vs => Except.ok (v :: vs)

/-- From `script.py` lines 157-160: parse the bench output and reduce the
speeds to their median. -/
def benchMedian (raw : String) : Except ScriptErr ℚ :=
  match parseBenchLines ((splitLines raw).dropLast) with
  | Except.error e => Except.error e
  | Except.ok vs => medianE vs

/-- One iteration of the report loop of `script.py` lines 147-202:
build the `.ef` index if missing, run the baseline random-speed bench,
and assemble the row. -/
def reportGraph (env : Env) (gd cd wd g : String) (m : Meas) :
    List Event × Except ScriptErr (List String) :=
  let base := gd ++ g ++ "/" ++ g
  let efEvents :=
    if env.isfile (base ++ ".ef") then []
    else [Event.proc (wd ++ "target/release/webgraph build ef " ++ base)]
  let benchCmd := wd ++ "target/release/webgraph bench bvgraph " ++ base ++ " --random 10000000"
  let evs := efEvents ++ [Event.proc benchCmd]
  match benchMedian (env.runOut benchCmd) with
  | Except.error e => (evs, Except.error e)
  | Except.ok bvRandomSpeed =>
    (evs, buildDataRow g m (env.fileSize (gd ++ g ++ "/" ++ g ++ ".obl")) bvRandomSpeed)

/-- The report loop over all graphs. -/
def reportAll (env : Env) (gd cd wd : String) :
    List (String × Meas) → List Event × Except ScriptErr (List (List String))
  | [] => ([], Except.ok [])
  | (g, m) :: rest =>
    let (ev, r) := reportGraph env gd cd wd g m
    match r with
    | Except.error e => (ev, Except.error e)
    | Except.ok row =>
      let (ev2, r2) := reportAll env gd cd wd rest
      match r2 with
      | Except.error e => (ev ++ ev2, Except.error e)
      | Except.ok rows => (ev ++ ev2, Except.ok (row :: rows))

/-- The four `cargo build` invocations of `script.py` lines 48-51. -/
def cargoEvents (wd : String) : List Event :=
  [Event.proc "cargo build --release --bin bvcomp",
   Event.proc "cargo build --release --bin random_access_bvtest",
   Event.proc "cargo build --release --bin seq_access_bvtest",
   Event.proc ("cargo build --release --manifest-path " ++ wd ++ "/Cargo.toml")]

/-- The whole of `script.py`: directory checks (lines 20-33), per-graph
file checks (lines 36-45), tool builds (lines 48-51), the measurement
loop, and the report loop.  The result is the ordered list of external
process launches together with either the report rows or the failure
that aborted the run. -/
def scriptRun (env : Env) (gd cd wd : String) (graphs : List String) :
    List Event × Except ScriptErr (List (List String)) :=
  if env.isdir gd && env.isdir wd && env.isdir cd then
    if filesOk env gd graphs then
      let (ev1, r1) := runGraphs env gd cd graphs
      match r1 with
      | Except.error e => (cargoEvents wd ++ ev1, Except.error e)
      | Except.ok ms =>
        let (ev2, r2) := reportAll env gd cd wd (graphs.zip ms)
        (cargoEvents wd ++ ev1 ++ ev2, r2)
    else ([], Except.error ScriptErr.preconditionError)
  else ([], Except.error ScriptErr.preconditionError)

/-! percomponent_analysis.py -/

/-- Emulation of `grep marker file -A 10`: the first line containing the marker and
the ten lines after it (empty when the marker does not occur). -/
def grepAfterBlock (marker : String) (after : ℕ) : List String → List String
  | [] => []
  | l :: rest =>
    if containsStr marker l then l :: rest.take after
    else grepAfterBlock marker after rest

/-- Standard output of the component pipeline of
`percomponent_analysis.py` lines 64-66: grep for the model-building
marker with ten following lines, then `cut -d'|' -f5 | cut -d'(' -f1`
on every line. -/
def componentBlockOut (marker : String) (lines : List String) : String :=
  joinLines ((grepAfterBlock marker 10 lines).map (fun l => cutF '(' 0 (cutF '|' 4 l)))

/-- The marker line greped for at lines 65 and 119. -/
def modelMarker : String :=
  "Building the model with EntropyEstimator..."

/-- Python `int(output[i])` for the line list obtained by splitting the block
output on newlines (`percomponent_analysis.py` lines 67-72): a missing
index raises `IndexError`, an unparseable cell raises `ValueError`. -/
def ansOutputCell (output : List String) (i : ℕ) : Except ScriptErr ℤ :=
  match output.get? i with
  | none => Except.error ScriptErr.indexError
  | some s =>
    match pyIntOfString s with
    | none => Except.error ScriptErr.malformedValueError
    | some z => Except.ok z

/-- The per-component byte counts of the ANS graph, summed from the
table cells as in `percomponent_analysis.py` lines 68-72:
blocks = cells 4+5, intervals = cells 6+7+8, residuals = cells 9+10,
references = cell 3, outdegree = cell 2 (in the evaluation
order of the source). -/
def ansComponents (outStr : String) : Except ScriptErr (ℤ × ℤ × ℤ × ℤ × ℤ) :=
  let output := splitLines outStr
  match ansOutputCell output 4 with
  | Except.error e => Except.error e
  | Except.ok o4 =>
  match ansOutputCell output 5 with
  | Except.error e => Except.error e
  | Except.ok o5 =>
  match ansOutputCell output 6 with
  | Except.error e => Except.error e
  | Except.ok o6 =>
  match ansOutputCell output 7 with
  | Except.error e => Except.error e
  | Except.ok o7 =>
  match ansOutputCell output 8 with
  | Except.error e => Except.error e
  | Except.ok o8 =>
  match ansOutputCell output 9 with
  | Except.error e => Except.error e
  | Except.ok o9 =>
  match ansOutputCell output 10 with
  | Except.error e => Except.error e
  | Except.ok o10 =>
  match ansOutputCell output 3 with
  | Except.error e => Except.error e
  | Except.ok o3 =>
  match ansOutputCell output 2 with
  | Except.error e => Except.error e
  | Except.ok o2 =>
    Except.ok (o4 + o5, o6 + o7 + o8, o9 + o10, o3, o2)

/-- One formatted cell of the per-component report
(`percomponent_analysis.py` lines 76-82):
`"{} ({:.1f}%)".format(sizeof_fmt(ans), -(((bv - ans) / bv) * 100))`. -/
def componentCell (bv ans : ℤ) : Except ScriptErr String :=
  match component_delta (bv : ℚ) (ans : ℚ) with
  | Except.error e => Except.error e
  | Except.ok pct => Except.ok (sizeofFmt (ans : ℚ) ++ " (" ++ fmtFixed 1 pct ++ "%)")

/-- One iteration of a report loop of `percomponent_analysis.py`
(lines 46-83 with `sfx = ""`, lines 100-137 with `sfx = "-hc"`): grep
the five per-component bit counts out of the property file (each
converted to bytes), extract the ANS component sizes from the saved
compressor output, and format the row. -/
def componentRow (env : Env) (gd cd sfx g : String) :
    List Event × Except ScriptErr (List String) :=
  let props := gd ++ g ++ "/" ++ g ++ sfx ++ ".properties"
  let pLines := env.fileLines props
  let cKey := fun (k : String) => "grep ^" ++ k ++ " " ++ props ++ " | cut -d= -f2"
  let blockCmd := "grep -wns " ++ modelMarker ++ " " ++ cd ++ g ++ sfx ++
    ".output -A 10 | cut -d| -f5 | cut -d( -f1"
  let e1 := [Event.proc (cKey "bitsforblocks")]
  match bvFieldLines "bitsforblocks" pLines with
  | Except.error e => (e1, Except.error e)
  | Except.ok bvBlocks =>
  let e2 := e1 ++ [Event.proc (cKey "bitsforintervals")]
  match bvFieldLines "bitsforintervals" pLines with
  | Except.error e => (e2, Except.error e)
  | Except.ok bvIntervals =>
  let e3 := e2 ++ [Event.proc (cKey "bitsforresiduals")]
  match bvFieldLines "bitsforresiduals" pLines with
  | Except.error e => (e3, Except.error e)
  | Except.ok bvResiduals =>
  let e4 := e3 ++ [Event.proc (cKey "bitsforreferences")]
  match bvFieldLines "bitsforreferences" pLines with
  | Except.error e => (e4, Except.error e)
  | Except.ok bvReferences =>
  let e5 := e4 ++ [Event.proc (cKey "bitsforoutdegrees")]
  match bvFieldLines "bitsforoutdegrees" pLines with
  | Except.error e => (e5, Except.error e)
  | Except.ok bvOutdegrees =>
  let e6 := e5 ++ [Event.proc blockCmd]
  match ansComponents (componentBlockOut modelMarker (env.fileLines (cd ++ g ++ sfx ++ ".output"))) with
  | Except.error e => (e6, Except.error e)
  | Except.ok (ansBlocks, ansIntervals, ansResiduals, ansReferences, ansOutdegree) =>
  match componentCell bvBlocks ansBlocks with
  | Except.error e => (e6, Except.error e)
  | Except.ok c1 =>
  match componentCell bvIntervals ansIntervals with
  | Except.error e => (e6, Except.error e)
  | Except.ok c2 =>
  match componentCell bvResiduals ansResiduals with
  | Except.error e => (e6, Except.error e)
  | Except.ok c3 =>
  match componentCell bvReferences ansReferences with
  | Except.error e => (e6, Except.error e)
  | Except.ok c4 =>
  match componentCell bvOutdegrees ansOutdegree with
  | Except.error e => (e6, Except.error e)
  | Except.ok c5 =>
    (e6, Except.ok [g, c1, c2, c3, c4, c5])

/-- A report loop of `percomponent_analysis.py` over all graphs. -/
def componentLoop (env : Env) (gd cd sfx : String) :
    List String → List Event × Except ScriptErr (List (List String))
  | [] => ([], Except.ok [])
  | g :: rest =>
    let (ev, r) := componentRow env gd cd sfx g
    match r with
    | Except.error e => (ev, Except.error e)
    | Except.ok row =>
      let (ev2, r2) := componentLoop env gd cd sfx rest
      match r2 with
      | Except.error e => (ev ++ ev2, Except.error e)
      | Except.ok rows => (ev ++ ev2, Except.ok (row :: rows))

/-- The file precheck of `percomponent_analysis.py` lines 25-32. -/
def percomponentFilesOk (env : Env) (gd cd : String) (graphs : List String) : Bool :=
  graphs.all (fun g =>
    env.isfile (gd ++ g ++ "/" ++ g ++ ".properties") && env.isfile (cd ++ g ++ ".output"))

/-- The whole of `percomponent_analysis.py`: the up-front file checks,
then the standard-graph report loop, then the high-compression report
loop. -/
def percomponentRun (env : Env) (gd cd : String) (graphs : List String) :
    List Event × Except ScriptErr (List (List String) × List (List String)) :=
  if percomponentFilesOk env gd cd graphs then
    let (e1, r1) := componentLoop env gd cd "" graphs
    match r1 with
    | Except.error e => (e1, Except.error e)
    | Except.ok rows1 =>
      let (e2, r2) := componentLoop env gd cd "-hc" graphs
      match r2 with
      | Except.error e => (e1 ++ e2, Except.error e)
      | Except.ok rows2 => (e1 ++ e2, Except.ok (rows1, rows2))
  else ([], Except.error ScriptErr.preconditionError)

/-! ### Support lemmas -/

lemma parseAll_length : ∀ (ls : List String) (ws : List ℚ), parseAll ls = some ws → ws.length = ls.length := by
  intro ls
  induction ls with
  | nil =>
    intro ws hw
    simp [parseAll] at hw
    subst hw
    rfl
  | cons s rest ih =>
    intro ws hw
    rcases h1 : pyFloat? s with _ | v <;> rcases h2 : parseAll rest with _ | ws' <;>
      simp [parseAll, h1, h2] at hw
    subst hw
    simp [ih ws' h2]

lemma sortAsc_eq_of_perm {l₁ l₂ : List ℚ} (h : l₁.Perm l₂) : sortAsc l₁ = sortAsc l₂ :=
  List.eq_of_perm_of_sorted
    ((List.perm_insertionSort _ _).trans (h.trans (List.perm_insertionSort _ _).symm))
    (List.sorted_insertionSort _ _) (List.sorted_insertionSort _ _)

lemma medianE_congr {l₁ l₂ : List ℚ} (h : sortAsc l₁ = sortAsc l₂) : medianE l₁ = medianE l₂ := by
  simp only [medianE, h]

/-! ### Claim theorems -/

/-- C1: on every non-empty sample sequence the Statistic Reducer of
`script.py` returns the element at index `len // 2` of the ascending
sort of the samples, and on `[12.5, 12.9, 13.1]` it returns `12.9`. -/
theorem c1_statistic_reducer (samples : List ℚ) (h : samples ≠ []) :
    (∃ (l : List ℚ) (hlt : l.length / 2 < l.length),
        List.Perm l samples ∧ List.Sorted (· ≤ ·) l ∧
        medianE samples = Except.ok (l.get ⟨l.length / 2, hlt⟩)) ∧
    medianE [25/2, 129/10, 131/10] = Except.ok (129/10) := by
  refine ⟨?_, by decide⟩
  have hlen : (sortAsc samples).length = samples.length :=
    (List.perm_insertionSort _ samples).length_eq
  have hpos : 0 < (sortAsc samples).length := by
    rw [hlen]
    exact List.length_pos.mpr h
  have hlt : (sortAsc samples).length / 2 < (sortAsc samples).length :=
    Nat.div_lt_self hpos (by norm_num)
  refine ⟨sortAsc samples, hlt, List.perm_insertionSort _ samples,
    List.sorted_insertionSort _ samples, ?_⟩
  simp only [medianE]
  rw [List.get?_eq_get hlt]

theorem c1_statistic_reducer_witness :
    ([25/2, 129/10, 131/10] : List ℚ) ≠ [] ∧
    ((∃ (l : List ℚ) (hlt : l.length / 2 < l.length),
        List.Perm l [25/2, 129/10, 131/10] ∧ List.Sorted (· ≤ ·) l ∧
        medianE [25/2, 129/10, 131/10] = Except.ok (l.get ⟨l.length / 2, hlt⟩)) ∧
      medianE [25/2, 129/10, 131/10] = Except.ok (129/10)) :=
  ⟨by decide, c1_statistic_reducer [25/2, 129/10, 131/10] (by decide)⟩

/-- C4: the Statistic Reducer fails on an empty sample sequence, and
that is the only input on which it fails with this error. -/
theorem c4_empty_sample_set :
    medianE [] = Except.error ScriptErr.emptySampleSetError ∧
    ∀ samples : List ℚ,
      medianE samples = Except.error ScriptErr.emptySampleSetError ↔ samples = [] := by
  refine ⟨rfl, fun samples => ⟨?_, ?_⟩⟩
  · intro hmed
    by_contra hne
    have hlen : (sortAsc samples).length = samples.length :=
      (List.perm_insertionSort _ samples).length_eq
    have hpos : 0 < (sortAsc samples).length := by
      rw [hlen]
      exact List.length_pos.mpr hne
    have hlt : (sortAsc samples).length / 2 < (sortAsc samples).length :=
      Nat.div_lt_self hpos (by norm_num)
    rw [show medianE samples = Except.ok ((sortAsc samples).get ⟨(sortAsc samples).length / 2, hlt⟩) from by
      simp only [medianE]
      rw [List.get?_eq_get hlt]] at hmed
    exact absurd hmed (by simp)
  · intro h
    subst h
    rfl

/-- C8: the Statistic Reducer is invariant under pre-sorting the
samples and under reversing the sorted samples. -/
theorem c8_resort_invariance (samples : List ℚ) (h : samples ≠ []) :
    medianE (sortAsc samples) = medianE samples ∧
    medianE ((sortAsc samples).reverse) = medianE samples :=
  ⟨medianE_congr (sortAsc_eq_of_perm (List.perm_insertionSort _ samples)),
   medianE_congr (sortAsc_eq_of_perm
     (((sortAsc samples).reverse_perm).trans (List.perm_insertionSort _ samples)))⟩

theorem c8_resort_invariance_witness :
    ([25/2, 129/10, 131/10] : List ℚ) ≠ [] ∧
    (medianE (sortAsc [25/2, 129/10, 131/10]) = medianE [25/2, 129/10, 131/10] ∧
     medianE ((sortAsc [25/2, 129/10, 131/10]).reverse) = medianE [25/2, 129/10, 131/10]) :=
  ⟨by decide, c8_resort_invariance [25/2, 129/10, 131/10] (by decide)⟩

/-- C2 counterexample: at baseline 2 and artifact size 1 the computed
percentage is `-50`, not the `(baseline - artifact) / baseline * 100 = 50`
of the claim, so the computed value is the negation of the claimed
formula and a smaller artifact yields a negative percentage. -/
theorem c2_sign_counterexample :
    occupation 2 1 = Except.ok (-50) ∧ specSpaceDelta 2 1 = 50 ∧
    occupation 2 1 ≠ Except.ok (specSpaceDelta 2 1) := by
  refine ⟨by decide, by decide, by decide⟩

/-- C2 amended: every percentage computed in one run — `occupation`,
`occupation_hc`, `occupation_phases`, `random_speed_comparison` in
`script.py`, and every per-component delta in
`percomponent_analysis.py` — equals `(artifact - baseline) / baseline * 100`,
the negation of the spec formula, so the sign convention is uniform and
negative means the new scheme is smaller. -/
theorem c2_sign_amended (b s : ℚ) (hb : 0 < b) :
    occupation b s = Except.ok ((s - b) / b * 100) ∧
    occupation_hc b s = Except.ok ((s - b) / b * 100) ∧
    occupation_phases b s = Except.ok ((s - b) / b * 100) ∧
    random_speed_comparison b s = Except.ok ((s - b) / b * 100) ∧
    component_delta b s = Except.ok ((s - b) / b * 100) ∧
    (s < b → (s - b) / b * 100 < 0) := by
  have hb' : b ≠ 0 := ne_of_gt hb
  refine ⟨?_, ?_, ?_, ?_, ?_, ?_⟩
  · simp only [occupation, pyDivE, if_neg hb']
    congr 1
    ring
  · simp only [occupation_hc, pyDivE, if_neg hb']
    congr 1
    ring
  · simp only [occupation_phases, pyDivE, if_neg hb']
    congr 1
    ring
  · simp only [random_speed_comparison, pyDivE, if_neg hb']
    congr 1
    ring
  · simp only [component_delta, pyDivE, if_neg hb']
    congr 1
    ring
  · intro hsb
    exact mul_neg_of_neg_of_pos (div_neg_of_neg_of_pos (by linarith) hb) (by norm_num)

theorem c2_sign_amended_witness :
    (0 : ℚ) < 2 ∧
    (occupation 2 1 = Except.ok ((1 - 2) / 2 * 100) ∧
     occupation_hc 2 1 = Except.ok ((1 - 2) / 2 * 100) ∧
     occupation_phases 2 1 = Except.ok ((1 - 2) / 2 * 100) ∧
     random_speed_comparison 2 1 = Except.ok ((1 - 2) / 2 * 100) ∧
     component_delta 2 1 = Except.ok ((1 - 2) / 2 * 100) ∧
     ((1 : ℚ) < 2 → ((1 : ℚ) - 2) / 2 * 100 < 0)) :=
  ⟨by norm_num, c2_sign_amended 2 1 (by norm_num)⟩

/-- C3: the bits-per-link value computed at `script.py` line 170 is
exactly `size * 8 / arcs` before any formatting, and at the scenario
sizes 939000 bytes and 3216152 arcs it is within 0.001 of 2.335. -/
theorem c3_bits_per_link (s a : ℚ) (ha : 0 < a) :
    bit_link s a = Except.ok (s * 8 / a) ∧
    bit_link 939000 3216152 = Except.ok (939000 * 8 / 3216152) ∧
    |(939000 : ℚ) * 8 / 3216152 - 2335 / 1000| < 1 / 1000 := by
  refine ⟨?_, by decide, by decide⟩
  simp only [bit_link, pyDivE, if_neg (ne_of_gt ha)]

theorem c3_bits_per_link_witness :
    (0 : ℚ) < 3216152 ∧
    (bit_link 939000 3216152 = Except.ok ((939000 : ℚ) * 8 / 3216152) ∧
     bit_link 939000 3216152 = Except.ok (939000 * 8 / 3216152) ∧
     |(939000 : ℚ) * 8 / 3216152 - 2335 / 1000| < 1 / 1000) :=
  ⟨by norm_num, c3_bits_per_link 939000 3216152 (by norm_num)⟩

/-- C5: every metric of the Metrics Engine fails on a zero denominator
(zero arc count for bits-per-link, zero baseline for every percentage)
instead of propagating an infinity or NaN. -/
theorem c5_degenerate_denominators :
    (∀ s : ℚ, bit_link s 0 = Except.error ScriptErr.degenerateMetricError) ∧
    (∀ s : ℚ, occupation 0 s = Except.error ScriptErr.degenerateMetricError) ∧
    (∀ s : ℚ, occupation_hc 0 s = Except.error ScriptErr.degenerateMetricError) ∧
    (∀ s : ℚ, occupation_phases 0 s = Except.error ScriptErr.degenerateMetricError) ∧
    (∀ s : ℚ, random_speed_comparison 0 s = Except.error ScriptErr.degenerateMetricError) ∧
    (∀ s : ℚ, component_delta 0 s = Except.error ScriptErr.degenerateMetricError) := by
  refine ⟨fun s => ?_, fun s => ?_, fun s => ?_, fun s => ?_, fun s => ?_, fun s => ?_⟩ <;>
    simp [bit_link, occupation, occupation_hc, occupation_phases,
      random_speed_comparison, component_delta, pyDivE]

/-- C6 counterexample: on `bitsforblocks=801` the Metadata Extractor
returns 100, which is not the claimed `801 / 8`. -/
theorem c6_truncation_counterexample :
    bvFieldLines "bitsforblocks" ["bitsforblocks=801"] = Except.ok 100 ∧
    ((100 : ℤ) : ℚ) ≠ 801 / 8 := by
  refine ⟨by decide, by norm_num⟩

/-- C6 amended: a bit-count field is converted to bytes by dividing by
8 and truncating to an integer (`int(v / 8)`, the floor for the
nonnegative values read from a property file); for a value that is a
multiple of 8 this is exactly the value divided by 8, and on the line
`bitsforblocks=800` the extractor returns 100. -/
theorem c6_bits_to_bytes_amended (v : ℕ) :
    bitsToBytes (v : ℚ) = ⌊(v : ℚ) / 8⌋ ∧
    bitsToBytes ((8 * v : ℕ) : ℚ) = (v : ℤ) ∧
    bvFieldLines "bitsforblocks" ["bitsforblocks=800"] = Except.ok 100 := by
  refine ⟨?_, ?_, by decide⟩
  · unfold bitsToBytes pyInt
    rw [if_pos (by positivity)]
    rfl
  · unfold bitsToBytes pyInt
    rw [show ((8 * v : ℕ) : ℚ) / 8 = ((v : ℕ) : ℚ) from by push_cast; ring,
      if_pos (by positivity)]
    show ⌊((v : ℕ) : ℚ)⌋ = (v : ℤ)
    exact Int.floor_natCast v

/-- C7: the Speed Sampler splits the raw benchmark output on newlines,
discards every empty line and parses each remaining line, so the
sample count equals the number of nonempty lines; on the raw output
`"12.5\n13.1\n\n12.9\n"` it yields `[12.5, 13.1, 12.9]`. -/
theorem c7_speed_sampler (raw : String) (vs : List ℚ)
    (h : speedSamples raw = Except.ok vs) :
    vs.length = ((splitLines raw).filter (fun s => s ≠ "")).length ∧
    speedSamples "12.5\n13.1\n\n12.9\n" = Except.ok [25/2, 131/10, 129/10] := by
  refine ⟨?_, by decide⟩
  unfold speedSamples at h
  rcases hp : parseAll ((splitLines raw).filter (fun s => s ≠ "")) with _ | ws
  · rw [hp] at h
    exact absurd h (by simp)
  · rw [hp] at h
    simp only [Except.ok.injEq] at h
    subst h
    exact parseAll_length _ _ hp

theorem c7_speed_sampler_witness :
    speedSamples "12.5\n13.1\n\n12.9\n" = Except.ok [25/2, 131/10, 129/10] ∧
    (([25/2, 131/10, 129/10] : List ℚ).length =
        ((splitLines "12.5\n13.1\n\n12.9\n").filter (fun s => s ≠ "")).length ∧
     speedSamples "12.5\n13.1\n\n12.9\n" = Except.ok [25/2, 131/10, 129/10]) :=
  ⟨by decide, c7_speed_sampler "12.5\n13.1\n\n12.9\n" [25/2, 131/10, 129/10] (by decide)⟩

/-- A helper for C9: a missing required file falsifies the file
precheck of `script.py`. -/
lemma filesOk_false (env : Env) (gd : String) (graphs : List String)
    (g f : String) (hg : g ∈ graphs) (hf : f ∈ requiredGraphFiles gd g)
    (hmiss : env.isfile f = false) : filesOk env gd graphs = false := by
  by_contra hcon
  rw [Bool.not_eq_false] at hcon
  unfold filesOk at hcon
  have h1 := List.all_eq_true.mp hcon g hg
  have h2 := List.all_eq_true.mp h1 f hf
  rw [hmiss] at h2
  exact absurd h2 (by simp)

/-- C9: when a required per-dataset file is missing (in particular the
`.properties` sidecar), both scripts abort with the precondition
failure and their event trace is empty: no external process is ever
launched. -/
theorem c9_precondition_abort (env : Env) (gd cd wd : String) (graphs : List String)
    (g f : String) (hg : g ∈ graphs) (hf : f ∈ requiredGraphFiles gd g)
    (hmiss : env.isfile f = false) :
    scriptRun env gd cd wd graphs = ([], Except.error ScriptErr.preconditionError) ∧
    (env.isfile (gd ++ g ++ "/" ++ g ++ ".properties") = false →
      percomponentRun env gd cd graphs = ([], Except.error ScriptErr.preconditionError)) := by
  constructor
  · have hfo : filesOk env gd graphs = false := filesOk_false env gd graphs g f hg hf hmiss
    unfold scriptRun
    cases hd : (env.isdir gd && env.isdir wd && env.isdir cd)
    · simp [hd]
    · simp [hd, hfo]
  · intro hp
    have hpo : percomponentFilesOk env gd cd graphs = false := by
      by_contra hcon
      rw [Bool.not_eq_false] at hcon
      unfold percomponentFilesOk at hcon
      have h1 := List.all_eq_true.mp hcon g hg
      simp only [Bool.and_eq_true] at h1
      rw [hp] at h1
      exact absurd h1.1 (by simp)
    unfold percomponentRun
    simp [hpo]

/-- An environment in which every file is missing, for the C9
witness. -/
def envMiss : Env where
  isdir := fun _ => true
  isfile := fun _ => false
  fileLines := fun _ => []
  fileSize := fun _ => none
  runOut := fun _ => ""

theorem c9_precondition_abort_witness :
    "cnr-2000" ∈ ["cnr-2000"] ∧
    "g/cnr-2000/cnr-2000.properties" ∈ requiredGraphFiles "g/" "cnr-2000" ∧
    envMiss.isfile "g/cnr-2000/cnr-2000.properties" = false ∧
    (scriptRun envMiss "g/" "c/" "w/" ["cnr-2000"] =
        ([], Except.error ScriptErr.preconditionError) ∧
     (envMiss.isfile ("g/" ++ "cnr-2000" ++ "/" ++ "cnr-2000" ++ ".properties") = false →
       percomponentRun envMiss "g/" "c/" ["cnr-2000"] =
         ([], Except.error ScriptErr.preconditionError))) :=
  ⟨by decide, by decide, rfl,
   c9_precondition_abort envMiss "g/" "c/" "w/" ["cnr-2000"] "cnr-2000"
     "g/cnr-2000/cnr-2000.properties" (by decide) (by decide) rfl⟩

/-- A helper for C10: the phases and total cells of a successfully
built report row. -/
lemma buildDataRow_cells (name : String) (m : Meas) (oblSize? : Option ℕ) (bvr : ℚ)
    (row : List String) (h : buildDataRow name m oblSize? bvr = Except.ok row) :
    row.get? 8 = some (natStr (m.ansSize + m.phasesSize) ++ " B") ∧
    ∃ pct, row.get? 7 = some (natStr m.phasesSize ++ " B(" ++ pct ++ "%)") := by
  unfold buildDataRow at h
  repeat' split at h
  any_goals exact Except.noConfusion h
  injection h with h
  subst h
  exact ⟨rfl, ⟨_, rfl⟩⟩

/-- C10: a successful measurement of a graph records as phases size the
sum of the byte sizes of the `.states` and `.pointers` files, and a
report row built from it carries as total the byte size of the `.ans`
payload plus that phases size (and shows the phases size in the phases
column). -/
theorem c10_phases_total (env : Env) (gd cd g : String) (m : Meas) (st pt a : ℕ)
    (hst : env.fileSize (cd ++ g ++ ".states") = some st)
    (hpt : env.fileSize (cd ++ g ++ ".pointers") = some pt)
    (ha : env.fileSize (cd ++ g ++ ".ans") = some a)
    (hm : (measureGraph env gd cd g).2 = Except.ok m) :
    m.phasesSize = st + pt ∧ m.ansSize = a ∧
    ∀ (oblSize? : Option ℕ) (bvr : ℚ) (row : List String),
      buildDataRow g m oblSize? bvr = Except.ok row →
      row.get? 8 = some (natStr (a + (st + pt)) ++ " B") ∧
      ∃ pct, row.get? 7 = some (natStr (st + pt) ++ " B(" ++ pct ++ "%)") := by
  have key : m.phasesSize = st + pt ∧ m.ansSize = a := by
    simp only [measureGraph] at hm
    cases h1 : pyIntOfString (grepCutW "arcs"
        (env.fileLines (gd ++ g ++ "/" ++ g ++ ".properties"))) with
    | none =>
      rw [h1] at hm
      simp at hm
    | some arcs =>
    rw [h1] at hm
    cases h2 : pyFloat? (stripChars "/n" (grepCutW "bitsperlink"
        (env.fileLines (gd ++ g ++ "/" ++ g ++ ".properties")))) with
    | none =>
      rw [h2] at hm
      simp at hm
    | some bpl =>
    rw [h2] at hm
    cases h3 : pyFloat? (stripChars "/n" (grepCutW "bitsperlink"
        (env.fileLines (gd ++ g ++ "/" ++ g ++ "-hc.properties")))) with
    | none =>
      rw [h3] at hm
      simp at hm
    | some hcBpl =>
    rw [h3] at hm
    rw [ha] at hm
    cases h4 : env.fileSize (cd ++ g ++ "-hc.ans") with
    | none =>
      rw [h4] at hm
      simp at hm
    | some ansHc =>
    rw [h4, hst, hpt] at hm
    cases h5 : medianOfRun (env.runOut ("./target/release/seq_access_bvtest " ++ cd ++ g ++ "-hc")) with
    | error e =>
      rw [h5] at hm
      simp at hm
    | ok seqSp =>
    rw [h5] at hm
    cases h6 : medianOfRun (env.runOut ("./target/release/random_access_bvtest " ++ cd ++ g)) with
    | error e =>
      rw [h6] at hm
      simp at hm
    | ok randSp =>
    rw [h6] at hm
    dsimp only at hm
    injection hm with hm
    subst hm
    exact ⟨rfl, rfl⟩
  refine ⟨key.1, key.2, ?_⟩
  intro oblSize? bvr row hrow
  have hc := buildDataRow_cells g m oblSize? bvr row hrow
  rw [key.1, key.2] at hc
  exact hc

/-- A fully stocked environment for the C10 witness: every size oracle
answers 10 bytes, the property file holds 100 arcs at 8 bits per link,
and each speed test emits the samples 1.5 and 2.5. -/
def envW : Env where
  isdir := fun _ => true
  isfile := fun _ => true
  fileLines := fun _ => ["arcs=100", "bitsperlink=8.0"]
  fileSize := fun _ => some 10
  runOut := fun _ => "1.5\n2.5\n"

/-- The measurements `measureGraph` produces in `envW`. -/
def measW : Meas where
  arcs := 100
  bvSize := 100
  bvHcSize := 100
  ansSize := 10
  ansHcSize := 10
  phasesSize := 20
  seqSpeed := 5/2
  randSpeed := 5/2

theorem c10_phases_total_witness :
    envW.fileSize ("c/" ++ "g" ++ ".states") = some 10 ∧
    envW.fileSize ("c/" ++ "g" ++ ".pointers") = some 10 ∧
    envW.fileSize ("c/" ++ "g" ++ ".ans") = some 10 ∧
    (measureGraph envW "g/" "c/" "g").2 = Except.ok measW ∧
    (measW.phasesSize = 10 + 10 ∧ measW.ansSize = 10 ∧
     ∀ (oblSize? : Option ℕ) (bvr : ℚ) (row : List String),
       buildDataRow "g" measW oblSize? bvr = Except.ok row →
       row.get? 8 = some (natStr (10 + (10 + 10)) ++ " B") ∧
       ∃ pct, row.get? 7 = some (natStr (10 + 10) ++ " B(" ++ pct ++ "%)")) :=
  ⟨rfl, rfl, rfl, by decide,
   c10_phases_total envW "g/" "c/" "g" measW 10 10 10 rfl rfl rfl (by decide)⟩
